import Mathlib

/-!
Shallow embedding of `src/main.py` of the leads-automation repository.

The core under verification is `process_leads_data`: it normalizes the
header of a pandas DataFrame in place, classifies columns by name
(`phone*`, `phone type*`, `email*` plus fixed scalar aliases), extracts
per-row wireless phone numbers and de-duplicated emails, and expands each
input row into zero or more fixed-schema output rows.

A pandas DataFrame is modelled as a header (list of column labels) plus
rows of cells aligned with the header.  A scalar cell is missing (`NaN`),
a string, or a non-string scalar.  Python string operations are embedded
at the character-sequence level (`str.startswith` is an initial-segment
test, `str.strip` drops surrounding whitespace, `str.lower` lowercases
each character).  The source mutates the caller's frame in place
(renaming the header and appending the list-valued columns
`unique_emails` and `wireless_phones`); this is modelled by state
passing: `process_leads_data` returns the final state of the caller's
frame alongside the outcome.

The pipeline is not total: when the classified email-column list is
empty and the frame has at least one row, the assignment
`df['unique_emails'] = df[email_columns].apply(..., axis=1)` on line 78
raises `ValueError` in pandas (`apply` on a zero-column frame infers a
reduction, and the lambda's empty-list result cannot be broadcast over a
non-empty row index).  `process_leads_data` therefore returns a
`PipelineResult`: either `raised` — carrying the caller's frame as the
exception leaves it, header already renamed by line 58 but no columns
appended — or `ok` with the fully mutated caller frame (`MutDF`, whose
two appended list-valued columns are held in dedicated fields) and the
output frame.
-/

/-- A pandas scalar cell value: missing (`NaN`), a string, or a
non-string scalar. -/
inductive Cell where
  | na : Cell
  | str : String → Cell
  | num : Int → Cell
deriving DecidableEq

/-- `pd.notna` on a cell. -/
def Cell.notna : Cell → Bool
  | .na => false
  | _ => true

/-- A DataFrame: a header of column labels and rows of cells aligned with it. -/
structure DF where
  header : List String
  rows : List (List Cell)
deriving DecidableEq

/-- Character-sequence begins-with test: embedding of Python
`str.startswith`, which checks that the pattern's characters are an
initial segment of the string's characters. -/
def charsBeginWith : List Char → List Char → Bool
  | [], _ => true
  | _ :: _, [] => false
  | a :: as, b :: bs => a == b && charsBeginWith as bs

/-- `s.startswith(p)` from the source, as the character-sequence test. -/
def pyStartsWith (s p : String) : Bool := charsBeginWith p.data s.data

/-- Python `str.lower`: lowercase every character. -/
def pyLower (s : String) : String := String.mk (s.data.map Char.toLower)

/-- Python `str.strip`: drop leading and trailing whitespace characters. -/
def pyStrip (s : String) : String :=
  String.mk (((s.data.dropWhile Char.isWhitespace).reverse.dropWhile Char.isWhitespace).reverse)

/-- `col.strip().lower()`: name normalization from line 58 of the source
(also applied to type tags on line 73). -/
def normalizeName (s : String) : String := pyLower (pyStrip s)

/-- `[col for col in df.columns if col.startswith('phone')]` (line 61). -/
def phoneColumns (cols : List String) : List String :=
  cols.filter (fun c => pyStartsWith c "phone")

/-- `[col for col in df.columns if col.startswith('phone type')]` (line 62). -/
def typeColumns (cols : List String) : List String :=
  cols.filter (fun c => pyStartsWith c "phone type")

/-- `[col for col in df.columns if col.startswith('email')]` (line 63). -/
def emailColumns (cols : List String) : List String :=
  cols.filter (fun c => pyStartsWith c "email")

/-- `row[col]` for a row of `cells` aligned with `header`: the cell at the
first matching label (labels come from `df.columns`, so the label is
present whenever the source indexes with it). -/
def cellAt (header : List String) (cells : List Cell) (col : String) : Cell :=
  match header.findIdx? (fun h => h == col) with
  | some i => cells.getD i Cell.na
  | none => Cell.na

/-- `row.get(col, d)`: the cell when the label exists (even if `NaN`),
else the default `d`. -/
def getCellD (header : List String) (cells : List Cell) (col : String) (d : Cell) : Cell :=
  match header.findIdx? (fun h => h == col) with
  | some i => cells.getD i Cell.na
  | none => d

/-- One iteration of the loop in `extract_wireless_phones` (lines 70-74):
the phones appended for one aligned `(phone_col, type_col)` pair.  The
type cell must be present and a string (`pd.notna` and
`isinstance(..., str)`), normalize to `"wireless"`, and the phone cell
must be present. -/
def pairPhones (header : List String) (cells : List Cell) (pr : String × String) : List Cell :=
  match cellAt header cells pr.2 with
  | Cell.str s =>
    if normalizeName s == "wireless" && (cellAt header cells pr.1).notna then
      [cellAt header cells pr.1]
    else []
  | _ => []

/-- `extract_wireless_phones(row)` (lines 65-75): concatenation of the
per-pair contributions over `zip(phone_columns, type_columns)`. -/
def extract_wireless_phones (header : List String) (cells : List Cell) : List Cell :=
  (((phoneColumns header).zip (typeColumns header)).map (pairPhones header cells)).flatten

/-- The email cells of a row that are present (`row.dropna()`), in column
order (`df[email_columns]` selects in `email_columns` order). -/
def presentEmailCells (header : List String) (cells : List Cell) : List Cell :=
  ((emailColumns header).map (cellAt header cells)).filter Cell.notna

/-- pandas `unique()`: de-duplicate by equality keeping the first
occurrence, preserving the relative order of first occurrences. -/
def dedupFirst (xs : List Cell) : List Cell :=
  xs.foldl (fun acc x => if acc.contains x then acc else acc ++ [x]) []

/-- `row.dropna().unique().tolist()` over the email columns (line 78). -/
def unique_emails (header : List String) (cells : List Cell) : List Cell :=
  dedupFirst (presentEmailCells header cells)

/-- One output row of the processed DataFrame (the dict built on lines
91-100 of the source). -/
structure Contact where
  firstName : Cell
  lastName : Cell
  email : Cell
  mobilePhone : Cell
  address : Cell
  city : Cell
  state : Cell
  zipCode : Cell
deriving DecidableEq

/-- The output rows the loop on lines 85-100 emits for one input row
(`header` is already normalized): one row per extracted wireless phone,
with the email at the same index when one exists and `""` otherwise, and
the scalar fields read by `row.get(..., "")`. -/
def expandRow (header : List String) (cells : List Cell) : List Contact :=
  let phones := extract_wireless_phones header cells
  let emails := unique_emails header cells
  (List.range phones.length).map (fun i =>
    { firstName := getCellD header cells "firstname" (Cell.str "")
      lastName := getCellD header cells "lastname" (Cell.str "")
      email := if i < emails.length then emails.getD i Cell.na else Cell.str ""
      mobilePhone := phones.getD i Cell.na
      address := getCellD header cells "propertyaddress" (Cell.str "")
      city := getCellD header cells "recipientcity" (Cell.str "")
      state := getCellD header cells "recipientstate" (Cell.str "")
      zipCode := getCellD header cells "recipientpostalcode" (Cell.str "") })

/-- The final state of the caller's frame after `process_leads_data`
returns: the source rebinds `df.columns` to the normalized names and
appends the list-valued columns `unique_emails` (line 78) and
`wireless_phones` (line 81).  The two appended columns hold Python list
values, which scalar cells cannot, so they live in dedicated fields; the
`header` still lists their labels in column order. -/
structure MutDF where
  header : List String
  rows : List (List Cell)
  uniqueEmailsCol : List (List Cell)
  wirelessPhonesCol : List (List Cell)
deriving DecidableEq

/-- `pd.DataFrame(output_rows)` (line 102): the output frame.  When
`output_rows` is empty, pandas produces a frame with an empty column
index, so the header is empty; otherwise the columns are the eight dict
keys in insertion order. -/
structure OutDF where
  header : List String
  rows : List Contact
deriving DecidableEq

/-- The eight output column labels, in the dict-insertion order of lines
92-99 of the source. -/
def fixedOutputHeader : List String :=
  ["First Name", "Last Name", "Email", "Mobile Phone", "Address", "City", "State", "Zip Code"]

/-- The outcome of one `process_leads_data` call.  `raised` is the
`ValueError` thrown by line 78 when there are no email columns but at
least one row; it carries the caller's frame as the exception leaves it
(header renamed by line 58, nothing appended).  `ok` carries the fully
mutated caller frame and the output frame. -/
inductive PipelineResult where
  | raised : DF → PipelineResult
  | ok : MutDF → OutDF → PipelineResult
deriving DecidableEq

/-- `process_leads_data(df)` (lines 46-103), with the in-place mutation of
the caller's frame made explicit.  Line 58 renames the header first; line
78 then raises `ValueError` iff the email-column list is empty and the
frame has rows (pandas `apply` over the zero-column selection builds a
length-0 Series against the non-empty row index); otherwise the two list
columns are appended and the output rows are built. -/
def process_leads_data (df : DF) : PipelineResult :=
  if (emailColumns (df.header.map normalizeName)).isEmpty && !df.rows.isEmpty then
    PipelineResult.raised
      { header := df.header.map normalizeName, rows := df.rows }
  else
    PipelineResult.ok
      { header := df.header.map normalizeName ++ ["unique_emails", "wireless_phones"]
        rows := df.rows
        uniqueEmailsCol := df.rows.map (unique_emails (df.header.map normalizeName))
        wirelessPhonesCol := df.rows.map (extract_wireless_phones (df.header.map normalizeName)) }
      { header := if ((df.rows.map (expandRow (df.header.map normalizeName))).flatten
                      : List Contact).isEmpty
                  then [] else fixedOutputHeader
        rows := (df.rows.map (expandRow (df.header.map normalizeName))).flatten }

/-- The rows of the output frame, when the pipeline returns normally. -/
def outRowsOf : PipelineResult → Option (List Contact)
  | .raised _ => none
  | .ok _ out => some out.rows

/-- The header of the output frame, when the pipeline returns normally. -/
def outHeaderOf : PipelineResult → Option (List String)
  | .raised _ => none
  | .ok _ out => some out.header

/-- The qualification predicate of claim C2 as amended (written from the
amended claim's words, for comparison with the source's `pairPhones`): the
type cell is present as a string whose normalization equals `"wireless"`,
and the phone cell is present; there is no non-emptiness check on the
phone, and `"voip"` is not accepted. -/
def qualifiesAmended (t p : Cell) : Bool :=
  (match t with
   | Cell.str s => normalizeName s == "wireless"
   | _ => false) && p.notna

/-- Concrete sample record: one wireless phone and one email. -/
def sampleHeader : List String := ["phone 1", "phone type 1", "email 1"]

/-- Cells of the concrete sample record. -/
def sampleCells : List Cell := [Cell.str "5551", Cell.str "wireless", Cell.str "a@x.com"]

/-- Concrete input frame with one email and no qualifying phone. -/
def c1df : DF := { header := ["Email 1"], rows := [[Cell.str "a@x.com"]] }

/-- Concrete input frame whose city, state and postal columns use the
`property*` spellings of the spec's alias table.  It has an email column,
so the pipeline does not raise on it. -/
def c4df : DF :=
  { header := ["propertycity", "propertystate", "propertypostalcode",
               "phone 1", "phone type 1", "email 1"]
    rows := [[Cell.str "Austin", Cell.str "TX", Cell.str "78701",
              Cell.str "5551", Cell.str "wireless", Cell.str "a@x.com"]] }

/-- The contact emitted for the single record of `c4df`. -/
def c4wct : Contact :=
  { firstName := Cell.str "", lastName := Cell.str "", email := Cell.str "a@x.com",
    mobilePhone := Cell.str "5551", address := Cell.str "", city := Cell.str "",
    state := Cell.str "", zipCode := Cell.str "" }

/-- Concrete input frame with a present-but-missing (`NaN`) first-name cell,
one qualifying phone, and an email column (so the pipeline does not raise). -/
def c7df : DF :=
  { header := ["FirstName", "phone 1", "phone type 1", "email 1"]
    rows := [[Cell.na, Cell.str "5551", Cell.str "wireless", Cell.str "a@x.com"]] }

/-- Concrete input frame with one qualifying phone, an email column whose
cell is missing, and none of the scalar alias columns. -/
def c7wdf : DF :=
  { header := ["phone 1", "phone type 1", "email 1"]
    rows := [[Cell.str "5551", Cell.str "wireless", Cell.na]] }

/-- The contact emitted for the single record of `c7wdf`. -/
def c7wct : Contact :=
  { firstName := Cell.str "", lastName := Cell.str "", email := Cell.str "",
    mobilePhone := Cell.str "5551", address := Cell.str "", city := Cell.str "",
    state := Cell.str "", zipCode := Cell.str "" }

/-- Concrete input frame whose header has no phone, phone-type or email
columns, with one row: the pipeline raises on it. -/
def c8wdf : DF := { header := ["foo"], rows := [[Cell.str "x"]] }

/-- Concrete input frame with the same degenerate header and no rows: the
pipeline returns normally with an empty, column-less output. -/
def c8edf : DF := { header := ["foo"], rows := [] }

/-- Concrete input frame for the mutation claim, hitting the raising
branch: an unnormalized phone header, no email columns, one row. -/
def c10df : DF := { header := ["Phone 1"], rows := [[Cell.str "5551"]] }

/-- The caller's frame as the `ValueError` leaves it for `c10df`: header
renamed by line 58, nothing appended. -/
def c10raisedFrame : DF := { header := ["phone 1"], rows := [[Cell.str "5551"]] }

/-- Concrete input frame for the mutation claim, hitting the normal
branch: it has an email column, so the pipeline returns. -/
def c10edf : DF :=
  { header := ["Phone 1", "Email 1"], rows := [[Cell.str "5551", Cell.str "a@x.com"]] }

/-- The caller's frame after processing `c10edf`: normalized header plus
the two appended list-valued columns. -/
def c10okFrame : MutDF :=
  { header := ["phone 1", "email 1", "unique_emails", "wireless_phones"]
    rows := [[Cell.str "5551", Cell.str "a@x.com"]]
    uniqueEmailsCol := [[Cell.str "a@x.com"]]
    wirelessPhonesCol := [[]] }

/-- The output frame for `c10edf`: no phone-type columns, hence no
qualifying phones and no output rows. -/
def c10okOut : OutDF := { header := [], rows := [] }

/-! ## Helper lemmas -/

lemma dedupFirst_foldl_mem (xs : List Cell) : ∀ (acc : List Cell) (a : Cell),
    (a ∈ xs.foldl (fun acc x => if acc.contains x then acc else acc ++ [x]) acc) ↔
      (a ∈ acc ∨ a ∈ xs) := by
  induction xs with
  | nil => intro acc a; simp
  | cons x xs ih =>
    intro acc a
    simp only [List.foldl_cons]
    by_cases hx : acc.contains x
    · rw [if_pos hx]
      replace hx : x ∈ acc := by simpa using hx
      rw [ih]
      constructor
      · rintro (h | h)
        · exact Or.inl h
        · exact Or.inr (List.mem_cons_of_mem _ h)
      · rintro (h | h)
        · exact Or.inl h
        · rcases List.mem_cons.mp h with rfl | h
          · exact Or.inl hx
          · exact Or.inr h
    · rw [if_neg hx]
      rw [ih]
      simp only [List.mem_append, List.mem_singleton, List.mem_cons]
      tauto

lemma dedupFirst_foldl_nodup (xs : List Cell) : ∀ (acc : List Cell), acc.Nodup →
    (xs.foldl (fun acc x => if acc.contains x then acc else acc ++ [x]) acc).Nodup := by
  induction xs with
  | nil => intro acc h; simpa using h
  | cons x xs ih =>
    intro acc hacc
    simp only [List.foldl_cons]
    by_cases hx : acc.contains x
    · rw [if_pos hx]; exact ih acc hacc
    · rw [if_neg hx]
      refine ih (acc ++ [x]) ?_
      replace hx : x ∉ acc := by simpa using hx
      simp [List.nodup_append, hacc, hx]

lemma dedupFirst_foldl_sublist (xs : List Cell) : ∀ (acc : List Cell),
    ∃ s, s.Sublist xs ∧
      xs.foldl (fun acc x => if acc.contains x then acc else acc ++ [x]) acc = acc ++ s := by
  induction xs with
  | nil => intro acc; exact ⟨[], List.Sublist.refl _, by simp⟩
  | cons x xs ih =>
    intro acc
    simp only [List.foldl_cons]
    by_cases hx : acc.contains x
    · rw [if_pos hx]
      obtain ⟨s, hs, he⟩ := ih acc
      exact ⟨s, hs.cons x, he⟩
    · rw [if_neg hx]
      obtain ⟨s, hs, he⟩ := ih (acc ++ [x])
      exact ⟨x :: s, hs.cons₂ x, by rw [he, List.append_assoc]; rfl⟩

lemma mem_dedupFirst (xs : List Cell) (a : Cell) : a ∈ dedupFirst xs ↔ a ∈ xs := by
  rw [dedupFirst, dedupFirst_foldl_mem]
  simp

lemma dedupFirst_nodup (xs : List Cell) : (dedupFirst xs).Nodup :=
  dedupFirst_foldl_nodup xs [] List.nodup_nil

lemma dedupFirst_sublist (xs : List Cell) : (dedupFirst xs).Sublist xs := by
  obtain ⟨s, hs, he⟩ := dedupFirst_foldl_sublist xs []
  rw [dedupFirst, he]
  simpa using hs

lemma charsBeginWith_append (p q s : List Char) :
    charsBeginWith (p ++ q) s = true → charsBeginWith p s = true := by
  induction p generalizing s with
  | nil => intro h; rfl
  | cons a as ih =>
    cases s with
    | nil => intro h; exact absurd h (by simp [charsBeginWith])
    | cons b bs =>
      simp only [List.cons_append, charsBeginWith, Bool.and_eq_true]
      rintro ⟨h1, h2⟩
      exact ⟨h1, ih bs h2⟩

lemma getCellD_of_not_mem (h : List String) (c : List Cell) (col : String) (d : Cell)
    (hcol : col ∉ h) : getCellD h c col d = d := by
  have hn : h.findIdx? (fun x => x == col) = none := by
    rw [List.findIdx?_eq_none_iff]
    intro x hx
    exact beq_eq_false_iff_ne.mpr (fun he => hcol (he ▸ hx))
  simp [getCellD, hn]

lemma expandRow_length (h : List String) (c : List Cell) :
    (expandRow h c).length = (extract_wireless_phones h c).length := by
  simp [expandRow]

lemma expandRow_getElem (h : List String) (c : List Cell) (i : Nat)
    (hi : i < (expandRow h c).length) :
    (expandRow h c)[i] =
      { firstName := getCellD h c "firstname" (Cell.str "")
        lastName := getCellD h c "lastname" (Cell.str "")
        email := if i < (unique_emails h c).length then
                   (unique_emails h c).getD i Cell.na else Cell.str ""
        mobilePhone := (extract_wireless_phones h c).getD i Cell.na
        address := getCellD h c "propertyaddress" (Cell.str "")
        city := getCellD h c "recipientcity" (Cell.str "")
        state := getCellD h c "recipientstate" (Cell.str "")
        zipCode := getCellD h c "recipientpostalcode" (Cell.str "") } := by
  simp [expandRow]

lemma mem_expandRow (h : List String) (c : List Cell) (ct : Contact)
    (hm : ct ∈ expandRow h c) :
    ∃ i, i < (extract_wireless_phones h c).length ∧
      ct = { firstName := getCellD h c "firstname" (Cell.str "")
             lastName := getCellD h c "lastname" (Cell.str "")
             email := if i < (unique_emails h c).length then
                        (unique_emails h c).getD i Cell.na else Cell.str ""
             mobilePhone := (extract_wireless_phones h c).getD i Cell.na
             address := getCellD h c "propertyaddress" (Cell.str "")
             city := getCellD h c "recipientcity" (Cell.str "")
             state := getCellD h c "recipientstate" (Cell.str "")
             zipCode := getCellD h c "recipientpostalcode" (Cell.str "") } := by
  simp only [expandRow, List.mem_map, List.mem_range] at hm
  obtain ⟨i, hi, rfl⟩ := hm
  exact ⟨i, by simpa [extract_wireless_phones] using hi, rfl⟩

lemma process_rows_of_ok (df : DF) (ls : List Contact)
    (hok : outRowsOf (process_leads_data df) = some ls) :
    ls = (df.rows.map (expandRow (df.header.map normalizeName))).flatten := by
  unfold process_leads_data at hok
  by_cases hc : ((emailColumns (df.header.map normalizeName)).isEmpty
      && !df.rows.isEmpty) = true
  · rw [if_pos hc] at hok
    exact absurd hok (by simp [outRowsOf])
  · rw [if_neg hc] at hok
    simpa [outRowsOf] using hok.symm

lemma mem_process_rows (df : DF) (ls : List Contact) (ct : Contact)
    (hok : outRowsOf (process_leads_data df) = some ls) (hm : ct ∈ ls) :
    ∃ cells, cells ∈ df.rows ∧ ct ∈ expandRow (df.header.map normalizeName) cells := by
  rw [process_rows_of_ok df ls hok] at hm
  rw [List.mem_flatten] at hm
  obtain ⟨l, hl, hctl⟩ := hm
  obtain ⟨cells, hcells, rfl⟩ := List.mem_map.mp hl
  exact ⟨cells, hcells, hctl⟩

/-! ## Claim theorems -/

/-- C1 (amended): for every record the row expander emits exactly `k`
rows, where `k` is the number of extracted wireless phones — zero rows iff
`k = 0`, regardless of the number `m` of de-duplicated emails; output row
`i` carries `phones[i]` (an index `i < k` always), and `emails[i]` if
`i < m` else the empty string. -/
theorem c1_rows_per_phone (h : List String) (c : List Cell) :
    (expandRow h c).length = (extract_wireless_phones h c).length ∧
    ∀ i (hi : i < (expandRow h c).length),
      ((expandRow h c)[i]).mobilePhone = (extract_wireless_phones h c).getD i Cell.na ∧
      ((expandRow h c)[i]).email =
        (if i < (unique_emails h c).length then (unique_emails h c).getD i Cell.na
         else Cell.str "") := by
  refine ⟨expandRow_length h c, ?_⟩
  intro i hi
  rw [expandRow_getElem h c i hi]
  exact ⟨rfl, rfl⟩

/-- C1 witness: the theorem applied to the sample record at row index 0. -/
theorem c1_rows_per_phone_witness :
    (expandRow sampleHeader sampleCells).length
        = (extract_wireless_phones sampleHeader sampleCells).length ∧
    ((expandRow sampleHeader sampleCells).get ⟨0, by decide⟩).mobilePhone
        = (extract_wireless_phones sampleHeader sampleCells).getD 0 Cell.na :=
  ⟨(c1_rows_per_phone sampleHeader sampleCells).1,
   ((c1_rows_per_phone sampleHeader sampleCells).2 0 (by decide)).1⟩

/-- C1 counterexample: a record with zero qualifying phones and one email
makes the pipeline return normally with zero output rows, not
`max(0, 1) = 1` rows as the claim states. -/
theorem c1_counter_not_max :
    (extract_wireless_phones (c1df.header.map normalizeName) (c1df.rows.getD 0 [])).length = 0 ∧
    (unique_emails (c1df.header.map normalizeName) (c1df.rows.getD 0 [])).length = 1 ∧
    outRowsOf (process_leads_data c1df) = some [] ∧
    ([] : List Contact).length ≠
      max (extract_wireless_phones (c1df.header.map normalizeName) (c1df.rows.getD 0 [])).length
        (unique_emails (c1df.header.map normalizeName) (c1df.rows.getD 0 [])).length := by
  decide

/-- C2 (amended): a phone qualifies iff its aligned type cell is present
as a string whose trimmed lowercase form equals `"wireless"` and the phone
cell is present; `"voip"` does not qualify, and a present empty-string
phone does qualify. -/
theorem c2_qualification :
    (∀ h c pr, pairPhones h c pr =
        (if qualifiesAmended (cellAt h c pr.2) (cellAt h c pr.1)
         then [cellAt h c pr.1] else [])) ∧
    extract_wireless_phones ["phone 1", "phone type 1"]
      [Cell.str "5551", Cell.str " VOIP "] = [] ∧
    extract_wireless_phones ["phone 1", "phone type 1"]
      [Cell.str "", Cell.str "Wireless"] = [Cell.str ""] := by
  refine ⟨?_, by decide, by decide⟩
  intro h c pr
  unfold pairPhones qualifiesAmended
  cases cellAt h c pr.2 <;> simp

/-- C2 counterexample: a present, non-empty phone whose aligned type tag
normalizes to `"voip"` is not extracted, although the claim says the
accepted-type set is `{"wireless", "voip"}`. -/
theorem c2_counter_voip_rejected :
    normalizeName " VOIP " = "voip" ∧
    (Cell.str "5551").notna = true ∧
    extract_wireless_phones ["phone 1", "phone type 1"]
      [Cell.str "5551", Cell.str " VOIP "] = [] := by
  decide

/-- C3 (amended): the phone-column set contains exactly the header columns
whose name starts with `"phone"` — including every phone-type column, so a
phone-type column is claimed by both roles rather than being excluded. -/
theorem c3_phone_columns (cols : List String) (c : String) :
    (c ∈ phoneColumns cols ↔ c ∈ cols ∧ pyStartsWith c "phone" = true) ∧
    (c ∈ typeColumns cols → c ∈ phoneColumns cols) := by
  constructor
  · simp [phoneColumns, List.mem_filter]
  · intro hc
    rw [typeColumns, List.mem_filter] at hc
    rw [phoneColumns, List.mem_filter]
    refine ⟨hc.1, ?_⟩
    have hsplit : ("phone type").data = ("phone").data ++ (" type").data := by decide
    have h2 := hc.2
    unfold pyStartsWith at h2 ⊢
    rw [hsplit] at h2
    exact charsBeginWith_append _ _ _ h2

/-- C3 witness: the theorem applied to a concrete one-column header. -/
theorem c3_phone_columns_witness :
    "phone type 1" ∈ phoneColumns ["phone type 1"] :=
  (c3_phone_columns ["phone type 1"] "phone type 1").2 (by decide)

/-- C3 counterexample: the column `"phone type 1"` is classified both as a
phone column and as a phone-type column, contradicting the claimed
exclusion. -/
theorem c3_counter_double_claim :
    phoneColumns ["phone type 1"] = ["phone type 1"] ∧
    typeColumns ["phone type 1"] = ["phone type 1"] := by
  decide

/-- C4 (amended): whenever the pipeline returns normally, every emitted
contact's City, State and Zip Code fields equal the record's cells in the
columns named `recipientcity`, `recipientstate` and `recipientpostalcode`
(not the `property*` spellings), read with an empty-string default; a role
whose column is absent resolves to the empty default. -/
theorem c4_city_state_zip :
    (∀ (df : DF) (ls : List Contact) (ct : Contact),
      outRowsOf (process_leads_data df) = some ls → ct ∈ ls →
      ∃ cells, cells ∈ df.rows ∧
        ct.city = getCellD (df.header.map normalizeName) cells "recipientcity" (Cell.str "") ∧
        ct.state = getCellD (df.header.map normalizeName) cells "recipientstate" (Cell.str "") ∧
        ct.zipCode
          = getCellD (df.header.map normalizeName) cells "recipientpostalcode" (Cell.str "")) ∧
    (∀ h c col d, col ∉ h → getCellD h c col d = d) := by
  constructor
  · intro df ls ct hok hm
    obtain ⟨cells, hcells, hmem⟩ := mem_process_rows df ls ct hok hm
    obtain ⟨i, hi, rfl⟩ := mem_expandRow _ _ _ hmem
    exact ⟨cells, hcells, rfl, rfl, rfl⟩
  · exact fun h c col d hcol => getCellD_of_not_mem h c col d hcol

/-- C4 witness: the theorem applied to the concrete frame `c4df` and its
emitted contact, and to a concrete absent column. -/
theorem c4_city_state_zip_witness :
    (∃ cells, cells ∈ c4df.rows ∧
      c4wct.city = getCellD (c4df.header.map normalizeName) cells "recipientcity" (Cell.str "") ∧
      c4wct.state = getCellD (c4df.header.map normalizeName) cells "recipientstate" (Cell.str "") ∧
      c4wct.zipCode
        = getCellD (c4df.header.map normalizeName) cells "recipientpostalcode" (Cell.str "")) ∧
    getCellD ["firstname"] [Cell.str "Ana"] "recipientcity" (Cell.str "") = Cell.str "" :=
  ⟨c4_city_state_zip.1 c4df [c4wct] c4wct (by decide) (by decide),
   c4_city_state_zip.2 ["firstname"] [Cell.str "Ana"] "recipientcity" (Cell.str "") (by decide)⟩

/-- C4 counterexample: a record carrying `propertycity`, `propertystate`
and `propertypostalcode` values (and an email column, so the pipeline
returns normally) emits a contact whose City, State and Zip Code are all
empty — the `property*` columns of the claim's alias table are ignored. -/
theorem c4_counter_property_aliases_ignored :
    cellAt (c4df.header.map normalizeName) (c4df.rows.getD 0 []) "propertycity"
      = Cell.str "Austin" ∧
    (outRowsOf (process_leads_data c4df)).map (List.map Contact.city)
      = some [Cell.str ""] ∧
    (outRowsOf (process_leads_data c4df)).map (List.map Contact.state)
      = some [Cell.str ""] ∧
    (outRowsOf (process_leads_data c4df)).map (List.map Contact.zipCode)
      = some [Cell.str ""] := by
  decide

/-- C5 (amended): a column is classified as an email column iff its
normalized name starts with `"email"` (prefix match, not substring
containment). -/
theorem c5_email_columns (cols : List String) (c : String) :
    c ∈ emailColumns cols ↔ c ∈ cols ∧ pyStartsWith c "email" = true := by
  simp [emailColumns, List.mem_filter]

/-- C5 counterexample: the column name `"work email"` contains `"email"`
as a substring but is not classified as an email column. -/
theorem c5_counter_substring_not_matched :
    "work email" = "work " ++ "email" ∧ emailColumns ["work email"] = [] := by
  decide

/-- C6 (confirmed): the extracted email sequence is the present
email-column cells in column order, de-duplicated by exact equality
keeping the first occurrence and preserving the relative order of first
occurrences: it has no duplicates, is an order-preserving sublist of the
present cells, keeps exactly their values, and on the spec's example
`["a@x.com", "b@y.com", "a@x.com"]` yields `["a@x.com", "b@y.com"]`. -/
theorem c6_email_dedup :
    (∀ h c, (unique_emails h c).Nodup ∧
      (unique_emails h c).Sublist (presentEmailCells h c) ∧
      ∀ x, x ∈ unique_emails h c ↔ x ∈ presentEmailCells h c) ∧
    unique_emails ["email 1", "email 2", "email 3"]
      [Cell.str "a@x.com", Cell.str "b@y.com", Cell.str "a@x.com"]
      = [Cell.str "a@x.com", Cell.str "b@y.com"] := by
  refine ⟨?_, by decide⟩
  intro h c
  exact ⟨dedupFirst_nodup _, dedupFirst_sublist _, fun x => mem_dedupFirst _ x⟩

/-- C7 (amended): whenever the pipeline returns normally, a scalar output
field whose alias column is absent from the normalized header resolves to
the empty string; but a present-but-missing (`NaN`) cell passes through
`row.get` unchanged, so the claim's "present-but-null resolves to empty
string" part fails. -/
theorem c7_absent_column_defaults (df : DF) (ls : List Contact) (ct : Contact)
    (hok : outRowsOf (process_leads_data df) = some ls) (hm : ct ∈ ls) :
    ("firstname" ∉ df.header.map normalizeName → ct.firstName = Cell.str "") ∧
    ("lastname" ∉ df.header.map normalizeName → ct.lastName = Cell.str "") ∧
    ("propertyaddress" ∉ df.header.map normalizeName → ct.address = Cell.str "") ∧
    ("recipientcity" ∉ df.header.map normalizeName → ct.city = Cell.str "") ∧
    ("recipientstate" ∉ df.header.map normalizeName → ct.state = Cell.str "") ∧
    ("recipientpostalcode" ∉ df.header.map normalizeName → ct.zipCode = Cell.str "") := by
  obtain ⟨cells, hcells, hmem⟩ := mem_process_rows df ls ct hok hm
  obtain ⟨i, hi, rfl⟩ := mem_expandRow _ _ _ hmem
  exact ⟨fun hna => getCellD_of_not_mem _ _ _ _ hna,
         fun hna => getCellD_of_not_mem _ _ _ _ hna,
         fun hna => getCellD_of_not_mem _ _ _ _ hna,
         fun hna => getCellD_of_not_mem _ _ _ _ hna,
         fun hna => getCellD_of_not_mem _ _ _ _ hna,
         fun hna => getCellD_of_not_mem _ _ _ _ hna⟩

/-- C7 witness: the theorem applied to `c7wdf` (an email column but none
of the scalar alias columns) and its emitted contact, whose scalar fields
are all the empty string. -/
theorem c7_absent_column_defaults_witness :
    c7wct.firstName = Cell.str "" ∧ c7wct.lastName = Cell.str "" ∧
    c7wct.address = Cell.str "" ∧ c7wct.city = Cell.str "" ∧
    c7wct.state = Cell.str "" ∧ c7wct.zipCode = Cell.str "" := by
  have H := c7_absent_column_defaults c7wdf [c7wct] c7wct (by decide) (by decide)
  exact ⟨H.1 (by decide), H.2.1 (by decide), H.2.2.1 (by decide),
         H.2.2.2.1 (by decide), H.2.2.2.2.1 (by decide), H.2.2.2.2.2 (by decide)⟩

/-- C7 counterexample: a record whose `firstname` column is present but
holds `NaN` (and which has an email column, so the pipeline returns
normally) emits a contact whose First Name field is the `NaN` marker, not
a string — the claim that every field is a string fails. -/
theorem c7_counter_nan_passthrough :
    (outRowsOf (process_leads_data c7df)).map (List.map Contact.firstName)
      = some [Cell.na] := by
  decide

/-- C8 (amended): for a header yielding no phone and no email columns,
the pipeline does not degrade gracefully: with at least one record it
raises `ValueError` at the `unique_emails` assignment (line 78), leaving
the caller's frame with only the renamed header; with no records it
terminates normally, and the empty output frame then carries no columns
(pandas `DataFrame([])`), not the fixed 8-column schema. -/
theorem c8_degraded_header (df : DF)
    (_hp : phoneColumns (df.header.map normalizeName) = [])
    (he : emailColumns (df.header.map normalizeName) = []) :
    (df.rows ≠ [] →
      process_leads_data df
        = PipelineResult.raised { header := df.header.map normalizeName, rows := df.rows }) ∧
    (df.rows = [] →
      process_leads_data df
        = PipelineResult.ok
            { header := df.header.map normalizeName ++ ["unique_emails", "wireless_phones"]
              rows := [], uniqueEmailsCol := [], wirelessPhonesCol := [] }
            { header := [], rows := [] }) := by
  constructor
  · intro hne
    have hcond : ((emailColumns (df.header.map normalizeName)).isEmpty
        && !df.rows.isEmpty) = true := by
      rw [he]
      simp [hne]
    unfold process_leads_data
    rw [if_pos hcond]
  · intro hemp
    have hcond : ¬ (((emailColumns (df.header.map normalizeName)).isEmpty
        && !df.rows.isEmpty) = true) := by
      rw [hemp]
      simp
    unfold process_leads_data
    rw [if_neg hcond, hemp]
    rfl

/-- C8 witness: the theorem applied to the one-row frame `c8wdf` (raising
branch) and to the empty frame `c8edf` (normal branch). -/
theorem c8_degraded_header_witness :
    process_leads_data c8wdf
      = PipelineResult.raised { header := c8wdf.header.map normalizeName, rows := c8wdf.rows } ∧
    process_leads_data c8edf
      = PipelineResult.ok
          { header := c8edf.header.map normalizeName ++ ["unique_emails", "wireless_phones"]
            rows := [], uniqueEmailsCol := [], wirelessPhonesCol := [] }
          { header := [], rows := [] } :=
  ⟨(c8_degraded_header c8wdf (by decide) (by decide)).1 (by decide),
   (c8_degraded_header c8edf (by decide) (by decide)).2 rfl⟩

/-- C8 counterexample: with one record and no phone or email columns the
pipeline raises `ValueError` instead of terminating normally; and even on
the empty input, where it does return, the empty output frame carries no
columns rather than the fixed 8-column schema. -/
theorem c8_counter_raises :
    process_leads_data c8wdf
      = PipelineResult.raised { header := ["foo"], rows := [[Cell.str "x"]] } ∧
    outRowsOf (process_leads_data c8wdf) = none ∧
    outHeaderOf (process_leads_data c8edf) = some [] ∧
    ([] : List String) ≠ fixedOutputHeader := by
  decide

/-- C9 (confirmed): for any aligned `(phoneColumn, phoneTypeColumn)` pair,
if the type cell is absent (`NaN`), the pair contributes no phone,
regardless of the phone cell's contents. -/
theorem c9_absent_type_excluded (h : List String) (c : List Cell) (pc tc : String)
    (hna : cellAt h c tc = Cell.na) :
    pairPhones h c (pc, tc) = [] := by
  simp [pairPhones, hna]

/-- C9 witness: the theorem applied to a concrete record with a present
phone and an absent type tag. -/
theorem c9_absent_type_excluded_witness :
    pairPhones ["phone 1", "phone type 1"] [Cell.str "5551", Cell.na]
      ("phone 1", "phone type 1") = [] :=
  c9_absent_type_excluded ["phone 1", "phone type 1"] [Cell.str "5551", Cell.na]
    "phone 1" "phone type 1" (by decide)

/-- C10 (amended): extraction and expansion are pure functions of the
record and the resolved roles, but the pipeline can mutate the caller's
table.  When it raises at line 78, the caller's frame is left with the
header already rebound to the normalized names (line 58 runs first) and
the original rows; when it returns normally, the header is additionally
extended with the appended `unique_emails` and `wireless_phones` columns,
so the returned table's header always differs from the input header. -/
theorem c10_table_mutated (df : DF) :
    (∀ d, process_leads_data df = PipelineResult.raised d →
      d.header = df.header.map normalizeName ∧ d.rows = df.rows) ∧
    (∀ m out, process_leads_data df = PipelineResult.ok m out →
      m.header = df.header.map normalizeName ++ ["unique_emails", "wireless_phones"] ∧
      m.rows = df.rows ∧
      m.uniqueEmailsCol = df.rows.map (unique_emails (df.header.map normalizeName)) ∧
      m.wirelessPhonesCol
        = df.rows.map (extract_wireless_phones (df.header.map normalizeName)) ∧
      m.header ≠ df.header) := by
  unfold process_leads_data
  by_cases hc : ((emailColumns (df.header.map normalizeName)).isEmpty
      && !df.rows.isEmpty) = true
  · rw [if_pos hc]
    constructor
    · intro d hd
      cases hd
      exact ⟨rfl, rfl⟩
    · intro m out hmo
      cases hmo
  · rw [if_neg hc]
    constructor
    · intro d hd
      cases hd
    · intro m out hmo
      cases hmo
      refine ⟨rfl, rfl, rfl, rfl, ?_⟩
      intro hne
      have hlen := congrArg List.length hne
      simp only [List.length_append, List.length_map, List.length_cons,
        List.length_nil] at hlen
      omega

/-- C10 witness: the theorem applied to the raising frame `c10df` and to
the normally-returning frame `c10edf`. -/
theorem c10_table_mutated_witness :
    (c10raisedFrame.header = c10df.header.map normalizeName ∧
     c10raisedFrame.rows = c10df.rows) ∧
    (c10okFrame.header
        = c10edf.header.map normalizeName ++ ["unique_emails", "wireless_phones"] ∧
     c10okFrame.rows = c10edf.rows ∧
     c10okFrame.uniqueEmailsCol
        = c10edf.rows.map (unique_emails (c10edf.header.map normalizeName)) ∧
     c10okFrame.wirelessPhonesCol
        = c10edf.rows.map (extract_wireless_phones (c10edf.header.map normalizeName)) ∧
     c10okFrame.header ≠ c10edf.header) :=
  ⟨(c10_table_mutated c10df).1 c10raisedFrame (by decide),
   (c10_table_mutated c10edf).2 c10okFrame c10okOut (by decide)⟩

/-- C10 counterexample: the caller's table is not left unchanged.  On the
raising frame `c10df` the header has already been renamed when the
exception propagates; on the normally-processed frame `c10edf` the final
header has gained the two appended columns. -/
theorem c10_counter_header_changed :
    process_leads_data c10df = PipelineResult.raised c10raisedFrame ∧
    c10raisedFrame.header ≠ c10df.header ∧
    process_leads_data c10edf = PipelineResult.ok c10okFrame c10okOut ∧
    c10okFrame.header ≠ c10edf.header := by
  decide
